import Mathlib

/-!
Verification of the data-cleaning and filtering pipeline of the mental-health
survey dashboard (src/app.py).

The embedding models:
* `load_data` (app.py lines 62-100): age-outlier filter, gender normalization
  via the synonym table with fallback "Other", missing-value substitution for
  `state`, `work_interfere`, `self_employed`, and age-group bucketing via
  `pd.cut` with bins [0, 25, 35, 45, 55, 100].
* the sidebar filter chain (app.py lines 152-163): gender multiselect with an
  "All" sentinel, inclusive age-range slider, country multiselect with "All",
  and treatment radio with "All".

A table is a list of rows; pandas boolean-mask filtering is `List.filter`
(order-preserving), and missing values (NaN) in string columns are `Option`.
-/

namespace MentalHealth

/-- One raw CSV row, restricted to the columns the cleaning and filtering
logic touches. Nullable string columns are `Option String` (pandas NaN is
`none`); `comments` stands for the pass-through columns that may hold
missing values and receive no cleaning rule. -/
structure RawRow where
  Age : Int
  Gender : Option String
  Country : String
  state : Option String
  self_employed : Option String
  work_interfere : Option String
  treatment : String
  family_history : String
  comments : Option String
  deriving DecidableEq

/-- One row of the canonical table produced by `load_data`: gender is
canonical, the three filled columns are total strings, and `Age_Group` is
the `pd.cut` result (`none` when the age falls in no bin). -/
structure Row where
  Age : Int
  Gender : String
  Country : String
  state : String
  self_employed : String
  work_interfere : String
  treatment : String
  family_history : String
  comments : Option String
  Age_Group : Option String
  deriving DecidableEq

/-- The gender synonym table of app.py lines 72-84, in dictionary order.
Keys are compared after lower-casing and stripping the raw value. -/
def gender_map : List (String × String) :=
  [("male", "Male"), ("m", "Male"), ("man", "Male"), ("cis male", "Male"),
   ("male-ish", "Male"), ("maile", "Male"), ("mal", "Male"), ("male (cis)", "Male"),
   ("make", "Male"), ("male ", "Male"), ("msle", "Male"), ("mail", "Male"),
   ("malr", "Male"), ("cis man", "Male"),
   ("female", "Female"), ("f", "Female"), ("woman", "Female"), ("cis female", "Female"),
   ("femake", "Female"), ("female ", "Female"), ("cis-female/femme", "Female"),
   ("female (cis)", "Female"), ("femail", "Female"),
   ("trans-female", "Trans"), ("trans woman", "Trans"), ("female (trans)", "Trans"),
   ("non-binary", "Non-binary"), ("genderqueer", "Non-binary"), ("fluid", "Non-binary"),
   ("queer", "Non-binary"), ("androgyne", "Non-binary"), ("agender", "Non-binary"),
   ("genderfluid", "Non-binary"), ("enby", "Non-binary")]

/-- Lower-casing of a string, character by character (`.str.lower()`). -/
def strLower (s : String) : String :=
  ⟨s.data.map Char.toLower⟩

/-- Stripping of leading and trailing whitespace (`.str.strip()`). -/
def strStrip (s : String) : String :=
  ⟨(((s.data.dropWhile Char.isWhitespace).reverse.dropWhile Char.isWhitespace).reverse)⟩

/-- Gender normalization (app.py lines 71-85): lower-case, strip, look up in
`gender_map`; a missing raw value or a value with no synonym entry becomes
"Other" (the `.map(...).fillna("Other")` fallback). -/
def normalizeGender (g : Option String) : String :=
  match g with
  | none => "Other"
  | some s => (gender_map.lookup (strStrip (strLower s))).getD "Other"

/-- Age bucketing (app.py lines 93-95): `pd.cut` with bins
[0, 25, 35, 45, 55, 100], i.e. the left-open right-closed intervals
(0,25], (25,35], (35,45], (45,55], (55,100]; out-of-range values get NaN. -/
def ageGroup (a : Int) : Option String :=
  if 0 < a ∧ a ≤ 25 then some "18-25"
  else if 25 < a ∧ a ≤ 35 then some "26-35"
  else if 35 < a ∧ a ≤ 45 then some "36-45"
  else if 45 < a ∧ a ≤ 55 then some "46-55"
  else if 55 < a ∧ a ≤ 100 then some "56+"
  else none

/-- The per-row cleaning applied to every surviving row: gender
normalization, the three `fillna` substitutions, and the derived
`Age_Group` column; all other columns pass through. -/
def cleanRow (r : RawRow) : Row :=
  { Age := r.Age
    Gender := normalizeGender r.Gender
    Country := r.Country
    state := r.state.getD "Not Applicable"
    self_employed := r.self_employed.getD "No"
    work_interfere := r.work_interfere.getD "Not Applicable"
    treatment := r.treatment
    family_history := r.family_history
    comments := r.comments
    Age_Group := ageGroup r.Age }

/-- `load_data` (app.py lines 62-100) minus the CSV read and timestamp
parse: drop rows unless 16 < Age < 100, then clean each remaining row. -/
def load_data (rows : List RawRow) : List Row :=
  (rows.filter (fun r => decide (16 < r.Age) && decide (r.Age < 100))).map cleanRow

example : normalizeGender (some "Cis Male") = "Male" := by decide
example : normalizeGender (some "xyz123") = "Other" := by decide
example : normalizeGender none = "Other" := by decide
example : ageGroup 35 = some "26-35" := by decide
example : ageGroup 36 = some "36-45" := by decide

/-- The user-selected filter criteria of the sidebar (app.py lines 121-149):
the gender multiselect, the inclusive age-range slider, the country
multiselect, and the treatment radio. The multiselects may contain the
sentinel "All"; the radio ranges over "All", "Yes", "No". -/
structure FilterCriteria where
  genders : List String
  ageMin : Int
  ageMax : Int
  countries : List String
  treatmentStatus : String
  deriving DecidableEq

/-- The filter chain of app.py lines 152-163, applied in source order:
gender `isin` unless "All" is selected, then the inclusive age range, then
country `isin` unless "All" is selected, then treatment equality unless the
radio is "All". -/
def applyFilters (table : List Row) (c : FilterCriteria) : List Row :=
  let t1 := if "All" ∈ c.genders then table
            else table.filter (fun r => decide (r.Gender ∈ c.genders))
  let t2 := t1.filter (fun r => decide (c.ageMin ≤ r.Age) && decide (r.Age ≤ c.ageMax))
  let t3 := if "All" ∈ c.countries then t2
            else t2.filter (fun r => decide (r.Country ∈ c.countries))
  if c.treatmentStatus ≠ "All" then t3.filter (fun r => decide (r.treatment = c.treatmentStatus))
  else t3

/-- The conjunction of the four per-row predicates: gender membership (or
"All"), the inclusive age range, country membership (or "All"), and
treatment equality (or "All"). -/
def matchesRow (c : FilterCriteria) (r : Row) : Bool :=
  decide ("All" ∈ c.genders ∨ r.Gender ∈ c.genders) &&
  (decide (c.ageMin ≤ r.Age) && decide (r.Age ≤ c.ageMax)) &&
  decide ("All" ∈ c.countries ∨ r.Country ∈ c.countries) &&
  decide (c.treatmentStatus = "All" ∨ r.treatment = c.treatmentStatus)

lemma applyFilters_eq_filter (table : List Row) (c : FilterCriteria) :
    applyFilters table c = table.filter (matchesRow c) := by
  unfold applyFilters
  by_cases hg : "All" ∈ c.genders <;>
  by_cases hc : "All" ∈ c.countries <;>
  by_cases ht : c.treatmentStatus = "All" <;>
  simp only [hg, hc, ht, if_pos, if_neg, ite_true, ite_false, ne_eq,
    not_true_eq_false, not_false_eq_true, List.filter_filter] <;>
  · apply List.filter_congr
    intro r _
    simp [matchesRow, hg, hc, ht, Bool.and_comm, Bool.and_assoc, Bool.and_left_comm]

lemma length_filter_mono {p q : Row → Bool} (l : List Row)
    (h : ∀ r, p r = true → q r = true) :
    (l.filter p).length ≤ (l.filter q).length := by
  induction l with
  | nil => simp
  | cons a t ih =>
    by_cases ha : p a = true
    · simp [List.filter, ha, h a ha, Nat.succ_le_succ ih]
    · by_cases hb : q a = true <;>
        simp [List.filter, ha, hb] <;> omega

/-- Concrete raw rows used to witness the universally quantified claims. -/
def rawCisMale : RawRow :=
  { Age := 25, Gender := some "Cis Male", Country := "United States",
    state := some "CA", self_employed := none,
    work_interfere := some "Often", treatment := "Yes",
    family_history := "No", comments := none }

def rawYoung : RawRow :=
  { Age := 15, Gender := some "Male", Country := "Canada",
    state := none, self_employed := some "No",
    work_interfere := none, treatment := "No",
    family_history := "No", comments := some "n/a" }

lemma mem_load_data {rows : List RawRow} {r : Row} (h : r ∈ load_data rows) :
    ∃ raw, raw ∈ rows ∧ (16 < raw.Age ∧ raw.Age < 100) ∧ r = cleanRow raw := by
  unfold load_data at h
  rcases List.mem_map.mp h with ⟨raw, hmem, hr⟩
  rcases List.mem_filter.mp hmem with ⟨hin, hp⟩
  simp only [Bool.and_eq_true, decide_eq_true_eq] at hp
  exact ⟨raw, hin, hp, hr.symm⟩

lemma lookup_mem_values {l : List (String × String)} {k v : String}
    (h : l.lookup k = some v) : v ∈ l.map Prod.snd := by
  induction l with
  | nil => simp [List.lookup] at h
  | cons p t ih =>
    obtain ⟨k1, v1⟩ := p
    rw [List.lookup] at h
    by_cases hk : (k == k1) = true
    · simp [hk] at h
      simp [h]
    · simp only [Bool.not_eq_true] at hk
      simp only [hk] at h
      simp [ih h]

lemma normalizeGender_mem (g : Option String) :
    normalizeGender g ∈ ["Male", "Female", "Trans", "Non-binary", "Other"] := by
  cases g with
  | none => simp [normalizeGender]
  | some s =>
    show (gender_map.lookup (strStrip (strLower s))).getD "Other" ∈ _
    cases h : gender_map.lookup (strStrip (strLower s)) with
    | none => simp
    | some v =>
      simp only [Option.getD_some]
      exact (by decide :
        ∀ x ∈ gender_map.map Prod.snd,
          x ∈ ["Male", "Female", "Trans", "Non-binary", "Other"]) v (lookup_mem_values h)

/-- C1: gender normalization lower-cases and strips the raw string, looks it
up in the fixed synonym table `gender_map`, and maps any unmatched (or
missing) value to "Other"; hence every record produced by `load_data` has a
gender in exactly the set of Male, Female, Trans, Non-binary, Other, and in
particular raw "Cis Male" normalizes to "Male" while raw "xyz123"
normalizes to "Other". -/
theorem gender_closure (rows : List RawRow) (r : Row) (h : r ∈ load_data rows) :
    r.Gender ∈ ["Male", "Female", "Trans", "Non-binary", "Other"] ∧
    normalizeGender (some "Cis Male") = "Male" ∧
    normalizeGender (some "xyz123") = "Other" := by
  rcases mem_load_data h with ⟨raw, _, _, rfl⟩
  exact ⟨normalizeGender_mem raw.Gender, by decide, by decide⟩

theorem gender_closure_witness :
    cleanRow rawCisMale ∈ load_data [rawCisMale] ∧
    (cleanRow rawCisMale).Gender ∈ ["Male", "Female", "Trans", "Non-binary", "Other"] := by
  have hm : cleanRow rawCisMale ∈ load_data [rawCisMale] := by decide
  exact ⟨hm, (gender_closure [rawCisMale] (cleanRow rawCisMale) hm).1⟩

/-- C2: every record produced by `load_data` satisfies 16 < age < 100, and a
raw row whose age is outside this open interval is dropped entirely at load
time: prepending it to the input leaves the output unchanged (no imputation,
no other modification). -/
theorem age_bounds_hard_drop (rows : List RawRow) (r : Row) (raw : RawRow)
    (h : r ∈ load_data rows) (hout : ¬(16 < raw.Age ∧ raw.Age < 100)) :
    (16 < r.Age ∧ r.Age < 100) ∧ load_data (raw :: rows) = load_data rows := by
  constructor
  · rcases mem_load_data h with ⟨raw0, _, hb, rfl⟩
    exact hb
  · have hb : (decide (16 < raw.Age) && decide (raw.Age < 100)) = false := by
      rcases Decidable.em (16 < raw.Age) with h1 | h1 <;>
        rcases Decidable.em (raw.Age < 100) with h2 | h2 <;>
        simp [h1, h2] <;> exact absurd ⟨h1, h2⟩ hout
    simp [load_data, List.filter_cons, hb]

theorem age_bounds_hard_drop_witness :
    (16 < (cleanRow rawCisMale).Age ∧ (cleanRow rawCisMale).Age < 100) ∧
    load_data (rawYoung :: [rawCisMale]) = load_data [rawCisMale] :=
  age_bounds_hard_drop [rawCisMale] (cleanRow rawCisMale) rawYoung
    (by decide) (by decide)

lemma ageGroup_spec (a : Int) :
    ((0 < a ∧ a ≤ 25) ↔ ageGroup a = some "18-25") ∧
    ((25 < a ∧ a ≤ 35) ↔ ageGroup a = some "26-35") ∧
    ((35 < a ∧ a ≤ 45) ↔ ageGroup a = some "36-45") ∧
    ((45 < a ∧ a ≤ 55) ↔ ageGroup a = some "46-55") ∧
    ((55 < a ∧ a ≤ 100) ↔ ageGroup a = some "56+") := by
  unfold ageGroup
  split_ifs <;>
    refine ⟨?_, ?_, ?_, ?_, ?_⟩ <;> constructor <;> intro hx <;>
    first
      | rfl
      | omega
      | exact absurd hx (by decide)

/-- C3: on the canonical table the derived age group is a total function of
age: each record falls in exactly one of the left-open right-closed buckets
(0,25], (25,35], (35,45], (45,55], (55,100] labeled 18-25, 26-35, 36-45,
46-55, 56+, a boundary value belonging to the lower bucket; in particular
age 35 yields "26-35" and age 36 yields "36-45". -/
theorem age_group_buckets (rows : List RawRow) (r : Row) (h : r ∈ load_data rows) :
    (((0 < r.Age ∧ r.Age ≤ 25) ↔ r.Age_Group = some "18-25") ∧
     ((25 < r.Age ∧ r.Age ≤ 35) ↔ r.Age_Group = some "26-35") ∧
     ((35 < r.Age ∧ r.Age ≤ 45) ↔ r.Age_Group = some "36-45") ∧
     ((45 < r.Age ∧ r.Age ≤ 55) ↔ r.Age_Group = some "46-55") ∧
     ((55 < r.Age ∧ r.Age ≤ 100) ↔ r.Age_Group = some "56+")) ∧
    (∃ l, r.Age_Group = some l ∧ l ∈ ["18-25", "26-35", "36-45", "46-55", "56+"]) ∧
    ageGroup 35 = some "26-35" ∧ ageGroup 36 = some "36-45" := by
  rcases mem_load_data h with ⟨raw, _, hb, rfl⟩
  have hspec := ageGroup_spec raw.Age
  refine ⟨hspec, ?_, by decide, by decide⟩
  rcases Decidable.em (raw.Age ≤ 25) with h1 | h1
  · exact ⟨"18-25", hspec.1.mp ⟨by omega, h1⟩, by decide⟩
  · rcases Decidable.em (raw.Age ≤ 35) with h2 | h2
    · exact ⟨"26-35", hspec.2.1.mp ⟨by omega, h2⟩, by decide⟩
    · rcases Decidable.em (raw.Age ≤ 45) with h3 | h3
      · exact ⟨"36-45", hspec.2.2.1.mp ⟨by omega, h3⟩, by decide⟩
      · rcases Decidable.em (raw.Age ≤ 55) with h4 | h4
        · exact ⟨"46-55", hspec.2.2.2.1.mp ⟨by omega, h4⟩, by decide⟩
        · exact ⟨"56+", hspec.2.2.2.2.mp ⟨by omega, by omega⟩, by decide⟩

theorem age_group_buckets_witness :
    ((25 < (cleanRow rawCisMale).Age ∧ (cleanRow rawCisMale).Age ≤ 35) ↔
      (cleanRow rawCisMale).Age_Group = some "26-35") ∧
    ageGroup 35 = some "26-35" ∧ ageGroup 36 = some "36-45" := by
  have h := age_group_buckets [rawCisMale] (cleanRow rawCisMale) (by decide)
  exact ⟨h.1.2.1, h.2.2⟩

/-- A raw row whose Gender cell is missing (NaN): `.map(gender_map)` keeps
it NaN and `.fillna("Other")` then replaces it, so loading substitutes a
default in a fourth column beyond state, work_interfere, self_employed. -/
def rawNoGender : RawRow :=
  { Age := 30, Gender := none, Country := "Canada",
    state := some "ON", self_employed := some "No",
    work_interfere := some "Sometimes", treatment := "Yes",
    family_history := "Yes", comments := none }

/-- C4 counterexample: the claim says only state, work_interfere and
self_employed receive default substitution and every other column (missing
values included) passes through unmodified; but a missing raw Gender is
replaced by "Other" at load time (app.py line 85), a fourth default
substitution. -/
theorem missing_value_rules_counterexample :
    rawNoGender.Gender = none ∧
    (load_data [rawNoGender]).map Row.Gender = ["Other"] := by
  exact ⟨rfl, by decide⟩

/-- C4 amended: loading fills exactly state (with "Not Applicable"),
work_interfere (with "Not Applicable") and self_employed (with "No"), so no
canonical record has a missing value in these three columns; gender is
additionally normalized, a missing or unmatched raw gender becoming
"Other"; the remaining columns (age, country, treatment, family_history,
comments) pass through unmodified, missing values included. -/
theorem missing_value_rules (rows : List RawRow) (r : Row) (h : r ∈ load_data rows) :
    ∃ raw, raw ∈ rows ∧
      r.state = raw.state.getD "Not Applicable" ∧
      r.work_interfere = raw.work_interfere.getD "Not Applicable" ∧
      r.self_employed = raw.self_employed.getD "No" ∧
      r.Gender = normalizeGender raw.Gender ∧
      r.Age = raw.Age ∧
      r.Country = raw.Country ∧
      r.treatment = raw.treatment ∧
      r.family_history = raw.family_history ∧
      r.comments = raw.comments := by
  rcases mem_load_data h with ⟨raw, hin, _, rfl⟩
  exact ⟨raw, hin, rfl, rfl, rfl, rfl, rfl, rfl, rfl, rfl, rfl⟩

theorem missing_value_rules_witness :
    ∃ raw, raw ∈ [rawYoung, rawNoGender] ∧
      (cleanRow rawNoGender).state = raw.state.getD "Not Applicable" ∧
      (cleanRow rawNoGender).work_interfere = raw.work_interfere.getD "Not Applicable" ∧
      (cleanRow rawNoGender).self_employed = raw.self_employed.getD "No" ∧
      (cleanRow rawNoGender).Gender = normalizeGender raw.Gender ∧
      (cleanRow rawNoGender).Age = raw.Age ∧
      (cleanRow rawNoGender).Country = raw.Country ∧
      (cleanRow rawNoGender).treatment = raw.treatment ∧
      (cleanRow rawNoGender).family_history = raw.family_history ∧
      (cleanRow rawNoGender).comments = raw.comments :=
  missing_value_rules [rawYoung, rawNoGender] (cleanRow rawNoGender) (by decide)

/-- Concrete canonical rows used to witness the filter claims. -/
def rowGermanyYes : Row :=
  { Age := 30, Gender := "Male", Country := "Germany", state := "Not Applicable",
    self_employed := "No", work_interfere := "Often", treatment := "Yes",
    family_history := "No", comments := none, Age_Group := some "26-35" }

def rowUSFemale : Row :=
  { Age := 42, Gender := "Female", Country := "United States", state := "CA",
    self_employed := "No", work_interfere := "Never", treatment := "No",
    family_history := "Yes", comments := some "ok", Age_Group := some "36-45" }

/-- The all-"All" criteria with an age range covering the whole canonical
age domain (ages lie in the open interval (16, 100)). -/
def allCriteria : FilterCriteria :=
  { genders := ["All"], ageMin := 17, ageMax := 99,
    countries := ["All"], treatmentStatus := "All" }

/-- C5: applyFilters returns exactly the rows satisfying the conjunction of
the four predicates (gender membership or "All", inclusive age range,
country membership or "All", treatment equality or "All"); in particular
with countries Germany and treatment "Yes" every returned row is a German
respondent whose treatment equals "Yes". -/
theorem filter_conjunction :
    (∀ (table : List Row) (c : FilterCriteria),
      applyFilters table c = table.filter (matchesRow c)) ∧
    (∀ (table : List Row) (c : FilterCriteria) (r : Row),
      c.countries = ["Germany"] → c.treatmentStatus = "Yes" →
      r ∈ applyFilters table c → r.Country = "Germany" ∧ r.treatment = "Yes") := by
  refine ⟨applyFilters_eq_filter, ?_⟩
  intro table c r hco ht hmem
  rw [applyFilters_eq_filter] at hmem
  have hm := (List.mem_filter.mp hmem).2
  simp only [matchesRow, hco, ht, Bool.and_eq_true, decide_eq_true_eq,
    List.mem_singleton] at hm
  obtain ⟨⟨-, hcountry⟩, htreat⟩ := hm
  refine ⟨?_, ?_⟩
  · rcases hcountry with h | h
    · exact absurd h (by decide)
    · exact h
  · rcases htreat with h | h
    · exact absurd h (by decide)
    · exact h

theorem filter_conjunction_witness :
    rowGermanyYes.Country = "Germany" ∧ rowGermanyYes.treatment = "Yes" :=
  filter_conjunction.2 [rowUSFemale, rowGermanyYes]
    { allCriteria with countries := ["Germany"], treatmentStatus := "Yes" }
    rowGermanyYes rfl rfl (by decide)

/-- C6: with all three categorical criteria at "All" and an age range
covering every age in the table, applyFilters is the identity: it returns
the same rows in the same order. -/
theorem filter_identity (table : List Row) (c : FilterCriteria)
    (hg : "All" ∈ c.genders) (hc : "All" ∈ c.countries)
    (ht : c.treatmentStatus = "All")
    (hage : ∀ r ∈ table, c.ageMin ≤ r.Age ∧ r.Age ≤ c.ageMax) :
    applyFilters table c = table := by
  rw [applyFilters_eq_filter]
  refine List.filter_eq_self.mpr fun r hr => ?_
  simp [matchesRow, hg, hc, ht, (hage r hr).1, (hage r hr).2]

theorem filter_identity_witness :
    applyFilters [rowGermanyYes, rowUSFemale] allCriteria = [rowGermanyYes, rowUSFemale] :=
  filter_identity [rowGermanyYes, rowUSFemale] allCriteria
    (by decide) (by decide) rfl (by decide)

/-- C7: an empty genders selection matches nothing — applyFilters returns
zero rows for every table — and this differs from the "All" selection,
which leaves the gender dimension unrestricted. -/
theorem empty_genders_matches_nothing :
    (∀ (table : List Row) (c : FilterCriteria), c.genders = [] →
      applyFilters table c = []) ∧
    (applyFilters [rowGermanyYes] allCriteria = [rowGermanyYes] ∧
     applyFilters [rowGermanyYes] { allCriteria with genders := [] } = []) := by
  refine ⟨?_, by decide, by decide⟩
  intro table c hge
  rw [applyFilters_eq_filter]
  refine List.filter_eq_nil_iff.mpr fun r hr => ?_
  simp [matchesRow, hge]

theorem empty_genders_matches_nothing_witness :
    applyFilters [rowGermanyYes] { allCriteria with genders := [] } = [] :=
  empty_genders_matches_nothing.1 [rowGermanyYes]
    { allCriteria with genders := [] } rfl

/-- Two canonical rows and a malformed criteria with ageMin = 40 greater
than ageMax = 20, used to refute the range-normalization claim. -/
def rowAge20 : Row :=
  { Age := 20, Gender := "Male", Country := "Canada", state := "Not Applicable",
    self_employed := "No", work_interfere := "Never", treatment := "No",
    family_history := "No", comments := none, Age_Group := some "18-25" }

def rowAge40 : Row :=
  { Age := 40, Gender := "Male", Country := "Canada", state := "Not Applicable",
    self_employed := "No", work_interfere := "Never", treatment := "No",
    family_history := "No", comments := none, Age_Group := some "36-45" }

def badRange : FilterCriteria :=
  { genders := ["All"], ageMin := 40, ageMax := 20,
    countries := ["All"], treatmentStatus := "All" }

/-- C8 counterexample: with min = 40 > max = 20 the code returns zero rows,
while filtering with the swapped range [20, 40] keeps both rows and
filtering with either clamped range ([40, 40] or [20, 20]) keeps one; so
the result does not equal filtering with any corrected range — the bounds
are not normalized. -/
theorem malformed_range_counterexample :
    applyFilters [rowAge20, rowAge40] badRange = [] ∧
    applyFilters [rowAge20, rowAge40] { badRange with ageMin := 20, ageMax := 40 } =
      [rowAge20, rowAge40] ∧
    applyFilters [rowAge20, rowAge40] { badRange with ageMin := 40, ageMax := 40 } =
      [rowAge40] ∧
    applyFilters [rowAge20, rowAge40] { badRange with ageMin := 20, ageMax := 20 } =
      [rowAge20] := by
  decide

/-- C8 amended: applyFilters is a total function, so a malformed range with
min > max raises no error, but the bounds are not swapped or clamped: the
inclusive-range conjunction is unsatisfiable and the result is empty. -/
theorem malformed_range_empty (table : List Row) (c : FilterCriteria)
    (h : c.ageMax < c.ageMin) : applyFilters table c = [] := by
  rw [applyFilters_eq_filter]
  refine List.filter_eq_nil_iff.mpr fun r hr => ?_
  simp only [matchesRow, Bool.and_eq_true, decide_eq_true_eq]
  rintro ⟨⟨⟨-, h1, h2⟩, -⟩, -⟩
  omega

theorem malformed_range_empty_witness :
    applyFilters [rowAge20, rowAge40] badRange = [] :=
  malformed_range_empty [rowAge20, rowAge40] badRange (by decide)

/-- C9: filtering is monotone — tightening any single criterion (removing a
value from genders or countries, shrinking the age range, or replacing the
treatment sentinel "All" with "Yes" or "No") never increases the number of
returned rows. -/
theorem filter_monotone (table : List Row) (c cR : FilterCriteria)
    (h : (∃ v, cR = { c with genders := c.genders.erase v }) ∨
         (∃ v, cR = { c with countries := c.countries.erase v }) ∨
         (∃ m M, c.ageMin ≤ m ∧ M ≤ c.ageMax ∧
            cR = { c with ageMin := m, ageMax := M }) ∨
         (c.treatmentStatus = "All" ∧ ∃ t, (t = "Yes" ∨ t = "No") ∧
            cR = { c with treatmentStatus := t })) :
    (applyFilters table cR).length ≤ (applyFilters table c).length := by
  rw [applyFilters_eq_filter, applyFilters_eq_filter]
  apply length_filter_mono
  intro r hm
  rcases h with ⟨v, rfl⟩ | ⟨v, rfl⟩ | ⟨m, M, hm1, hM, rfl⟩ | ⟨hall, t, -, rfl⟩ <;>
    simp only [matchesRow, Bool.and_eq_true, decide_eq_true_eq] at hm ⊢
  · obtain ⟨⟨⟨hg, ha⟩, hc⟩, htr⟩ := hm
    exact ⟨⟨⟨hg.imp List.mem_of_mem_erase List.mem_of_mem_erase, ha⟩, hc⟩, htr⟩
  · obtain ⟨⟨⟨hg, ha⟩, hc⟩, htr⟩ := hm
    exact ⟨⟨⟨hg, ha⟩, hc.imp List.mem_of_mem_erase List.mem_of_mem_erase⟩, htr⟩
  · obtain ⟨⟨⟨hg, ha1, ha2⟩, hc⟩, htr⟩ := hm
    exact ⟨⟨⟨hg, by omega, by omega⟩, hc⟩, htr⟩
  · obtain ⟨⟨⟨hg, ha⟩, hc⟩, -⟩ := hm
    exact ⟨⟨⟨hg, ha⟩, hc⟩, Or.inl hall⟩

/-- The base criteria tightened in the monotonicity witness. -/
def monoBase : FilterCriteria :=
  { genders := ["Male", "Female"], ageMin := 17, ageMax := 99,
    countries := ["All"], treatmentStatus := "All" }

theorem filter_monotone_witness :
    (applyFilters [rowGermanyYes, rowUSFemale]
        { monoBase with genders := monoBase.genders.erase "Female" }).length ≤
      (applyFilters [rowGermanyYes, rowUSFemale] monoBase).length :=
  filter_monotone [rowGermanyYes, rowUSFemale] monoBase
    { monoBase with genders := monoBase.genders.erase "Female" }
    (Or.inl ⟨"Female", rfl⟩)

/-- C10: the genders and countries restrictions apply exactly when "All" is
absent from the selection: any selection containing "All" — even together
with specific values — behaves like the plain "All" selection, so
["All", "Male"] leaves the gender dimension unrestricted rather than
restricting to Male. -/
theorem all_sentinel_unrestricted :
    (∀ (table : List Row) (c : FilterCriteria), "All" ∈ c.genders →
      applyFilters table c = applyFilters table { c with genders := ["All"] }) ∧
    (∀ (table : List Row) (c : FilterCriteria), "All" ∈ c.countries →
      applyFilters table c = applyFilters table { c with countries := ["All"] }) ∧
    (applyFilters [rowGermanyYes, rowUSFemale]
        { allCriteria with genders := ["All", "Male"] } =
      [rowGermanyYes, rowUSFemale] ∧
     applyFilters [rowGermanyYes, rowUSFemale]
        { allCriteria with genders := ["Male"] } =
      [rowGermanyYes]) := by
  have hAll : ("All" : String) ∈ ["All"] := by decide
  refine ⟨?_, ?_, by decide, by decide⟩
  · intro table c hg
    simp [applyFilters, hg, hAll]
  · intro table c hc
    simp [applyFilters, hc, hAll]

theorem all_sentinel_unrestricted_witness :
    applyFilters [rowGermanyYes, rowUSFemale]
        { allCriteria with genders := ["All", "Male"] } =
      applyFilters [rowGermanyYes, rowUSFemale]
        { { allCriteria with genders := ["All", "Male"] } with genders := ["All"] } :=
  all_sentinel_unrestricted.1 [rowGermanyYes, rowUSFemale]
    { allCriteria with genders := ["All", "Male"] } (by decide)

end MentalHealth
